import Mathlib

/-! # example-go-otel-datadog: `main.go`

A shallow embedding of `main.go` and the properties of its wiring.

The program is a single `main` function that composes third-party components
(zap, the Datadog opentracer, chi, httptracer, net/http).  The embedding has two layers:

* what `main.go` itself contains is transcribed statement by statement:
  the constants, the `SkipFunc` closure, the two route handlers and the body of `main`;
* the library calls made by those statements are given small executable models that
  record the call in a trace and implement the behaviour the program relies on
  (chi's `Use`/`Get`/`chain`/routing of static patterns and its four stock middlewares,
  `opentracing.StartSpanFromContext`, `net/http`'s implicit header write and the way
  `net/url` fills `URL.Path` and `URL.RawPath`, `net.JoinHostPort`, `os.LookupEnv`,
  `defer`).  Each such model says so in its doc comment.

Everything that the outside world decides (whether the logger can be built, the
environment, what `ListenAndServe` returns, how long each call takes) is a field of
`World` or of the per-request state, and theorems quantify over it.
-/

namespace ExampleOtel

/-! ## Constants of `main.go` -/

/-- Source constant `ServiceName`. -/
def ServiceName : String := "example"

/-- Source constant `ServiceVersion`. -/
def ServiceVersion : String := "v0.1.0"

/-- Go constant `http.StatusOK`. -/
def StatusOK : Nat := 200

/-- Go constant `http.StatusNotFound`. -/
def StatusNotFound : Nat := 404

/-- Go constant `http.StatusMethodNotAllowed`. -/
def StatusMethodNotAllowed : Nat := 405

/-- Go constant `http.StatusInternalServerError`. -/
def StatusInternalServerError : Nat := 500

/-- Go constant `time.Millisecond`, in nanoseconds (the unit of `time.Duration`). -/
def Millisecond : Nat := 1000000

/-- Values of Go's `error` interface as far as the program tells them apart: the sentinel
`http.ErrServerClosed`, which `main` compares with `==`, and any other error value. -/
inductive Error where
  | ErrServerClosed
  | other (msg : String)
deriving DecidableEq, Repr

/-! ## Requests, contexts and the per-request state -/

/-- Values a handler can panic with, as far as chi tells them apart: the sentinel
`http.ErrAbortHandler`, which `Recoverer` lets through, and any other value. -/
inductive PanicValue where
  | ErrAbortHandler
  | other (msg : String)
deriving DecidableEq, Repr

/-- The request context `r.Context()`, reduced to the values that the program and its
middlewares store in it: the active span (`opentracing.SpanFromContext`), identified by its
span id, and the request id (`middleware.GetReqID`, the empty string when there is none). -/
structure Context where
  span : Option Nat
  reqID : String
deriving DecidableEq, Repr

/-- Model of `ishex` of net/url. -/
def ishex (c : Char) : Bool :=
  ('0'.toNat ≤ c.toNat && c.toNat ≤ '9'.toNat) ||
  ('a'.toNat ≤ c.toNat && c.toNat ≤ 'f'.toNat) ||
  ('A'.toNat ≤ c.toNat && c.toNat ≤ 'F'.toNat)

/-- Model of `unhex` of net/url. -/
def unhex (c : Char) : Nat :=
  if '0'.toNat ≤ c.toNat && c.toNat ≤ '9'.toNat then c.toNat - '0'.toNat
  else if 'a'.toNat ≤ c.toNat && c.toNat ≤ 'f'.toNat then c.toNat - 'a'.toNat + 10
  else if 'A'.toNat ≤ c.toNat && c.toNat ≤ 'F'.toNat then c.toNat - 'A'.toNat + 10
  else 0

/-- Model of `unescape` of net/url in path mode, on the bytes of a raw path: a percent sign
must be followed by two hex digits and the three bytes stand for one byte; every other byte
stands for itself.  `none` is the `EscapeError`. -/
def unescape : List Char → Option (List Char)
  | [] => some []
  | c :: rest =>
    if c = '%' then
      match rest with
      | a :: b :: rest =>
        if ishex a && ishex b then
          (unescape rest).map (fun l => Char.ofNat (16 * unhex a + unhex b) :: l)
        else none
      | _ => none
    else (unescape rest).map (fun l => c :: l)

/-- The fields of `*http.Request` that the program, its router or its middlewares
inspect. -/
structure Request where
  Method : String
  /-- The field `r.URL.Path`: the path of the request target, percent-decoded. -/
  Path : String
  /-- The field `r.URL.RawPath`: the path as the client spelled it, set only when that
  spelling is not the default encoding of `Path`. -/
  RawPath : String
  /-- The call `r.Header.Get(key)`, the empty string when the header is absent. -/
  Header : String → String
  RemoteAddr : String
  /-- The result of chi's helper `realIP(r)`, a function of the request headers: the
  client address they announce, or the empty string. -/
  realIP : String
  /-- The value of `r.Context()`. -/
  ctx : Context
  /-- How net/url (`setPath`) and net/http fill the two path fields of a request read from
  the wire: `RawPath` is either empty, or it begins with a slash and `Path` is its
  percent-decoding. -/
  escaped : RawPath = "" ∨
    (RawPath.toList.head? = some '/' ∧ unescape RawPath.toList = some Path.toList)

/-- The observable state of an `http.ResponseWriter`: the status code once the header has
been written (`none` before), and the body bytes written so far. -/
structure ResponseWriter where
  status : Option Nat
  body : String
deriving DecidableEq, Repr

/-- Calls observed while one request is served, in program order.  Span starts and
finishes carry the clock value at which they happen. -/
inductive Effect where
  | StartSpan (id : Nat) (operationName : String) (parent : Option Nat) (time : Nat)
  | Finish (id : Nat) (time : Nat)
  | Sleep (d : Nat)
  | WriteHeader (code : Nat)
  | Write (data : String)
deriving DecidableEq, Repr

/-- Lines that chi's `Logger` and `Recoverer` print, reduced to what they are about: the
line for a served request with the request id, method and remote address that the log
entry was made from, and the report of a recovered panic. -/
inductive LogLine where
  | request (reqID : String) (method : String) (remoteAddr : String)
  | panic (v : PanicValue)
deriving DecidableEq, Repr

/-- State threaded through the handling of one request.  `now` is a monotonic clock in
nanoseconds; `lat` is the (unknown, arbitrary) time each successive call takes, indexed by
`tick`; `nextSpan` is the id the tracer gives to the next span it starts; `genID` is the id
that `middleware.RequestID` generates for a request that brings none; `out` is what the
chi middlewares have printed; `panic` is the panic, if any, with which the handler call that
produced this state ended. -/
structure Exchange where
  now : Nat
  lat : Nat → Nat
  tick : Nat
  nextSpan : Nat
  w : ResponseWriter
  log : List Effect
  genID : String
  out : List LogLine
  panic : Option PanicValue

/-- A handler in the sense of `http.HandlerFunc`, as a state transformer. -/
abbrev Handler := Request → Exchange → Exchange

/-- Let the time taken by the current call pass. -/
def Exchange.advance (s : Exchange) : Exchange :=
  { s with now := s.now + s.lat s.tick, tick := s.tick + 1 }

/-- Model of `Tracer.StartSpan(operationName, ChildOf(parent))`: a fresh span id, the
start recorded at the current clock value. -/
def StartSpan (operationName : String) (parent : Option Nat) (s : Exchange) :
    Nat × Exchange :=
  let s := s.advance
  (s.nextSpan,
   { s with nextSpan := s.nextSpan + 1,
            log := s.log ++ [Effect.StartSpan s.nextSpan operationName parent s.now] })

/-- Model of `opentracing.ContextWithSpan`. -/
def ContextWithSpan (ctx : Context) (span : Nat) : Context :=
  { ctx with span := some span }

/-- Model of `opentracing.StartSpanFromContext(ctx, operationName)`: the new span is a
child of the span found in `ctx`, if there is one, and is returned together with a context
in which it is the active span. -/
def StartSpanFromContext (ctx : Context) (operationName : String) (s : Exchange) :
    (Nat × Context) × Exchange :=
  let (span, s) := StartSpan operationName ctx.span s
  ((span, ContextWithSpan ctx span), s)

/-- Model of `Span.Finish()`: the call is recorded with the clock value. -/
def Finish (span : Nat) (s : Exchange) : Exchange :=
  let s := s.advance
  { s with log := s.log ++ [Effect.Finish span s.now] }

/-- Model of `time.Sleep(d)`: the caller is paused for at least `d`. -/
def Sleep (d : Nat) (s : Exchange) : Exchange :=
  let s := s.advance
  { s with now := s.now + d, log := s.log ++ [Effect.Sleep d] }

/-- Model of `ResponseWriter.WriteHeader` of net/http: the first call fixes the status
code, later calls are ignored. -/
def ResponseWriter.WriteHeader (w : ResponseWriter) (code : Nat) : ResponseWriter :=
  match w.status with
  | none => { w with status := some code }
  | some _ => w

/-- Model of `ResponseWriter.Write` of net/http: if the header has not been written yet,
`WriteHeader(http.StatusOK)` is called first; then the data is appended to the body. -/
def ResponseWriter.Write (w : ResponseWriter) (data : String) : ResponseWriter :=
  let w := w.WriteHeader StatusOK
  { w with body := w.body ++ data }

/-- The call `w.WriteHeader(code)` made by a handler. -/
def WriteHeader (code : Nat) (s : Exchange) : Exchange :=
  let s := s.advance
  { s with w := s.w.WriteHeader code, log := s.log ++ [Effect.WriteHeader code] }

/-- The call `io.WriteString(w, data)` made by a handler (it calls `w.Write`). -/
def WriteString (data : String) (s : Exchange) : Exchange :=
  let s := s.advance
  { s with w := s.w.Write data, log := s.log ++ [Effect.Write data] }

/-! ## The closures of `main.go` -/

/-- The closure passed as `httptracer.Config.SkipFunc` (main.go, lines 52-54). -/
def SkipFunc (r : Request) : Bool :=
  r.Path == "/health"

/-- The handler registered with `r.Get("/", ...)` (main.go, lines 60-70).  The deferred
`span.Finish()` runs when the function returns, after the body has been written. -/
def indexHandler : Handler := fun r s =>
  let ((span, ctx), s) := StartSpanFromContext r.ctx "IndexHandler" s
  -- defer span.Finish()
  let ((dbCall, _), s) := StartSpanFromContext ctx "DBCall" s
  let s := Sleep (100 * Millisecond) s
  let s := Finish dbCall s
  let s := WriteString "Hello, World!" s
  -- the deferred call
  Finish span s

/-- The handler registered with `r.Get("/healthz", ...)` (main.go, lines 72-75). -/
def healthzHandler : Handler := fun _ s =>
  let s := WriteHeader StatusOK s
  WriteString "OK" s

/-! ## httptracer -/

/-- The fields of `httptracer.Config` set by `main.go`.  The Go field `SampleRate` is a
`float64`; the program only ever stores the literal `1` in it. -/
structure Config where
  ServiceName : String
  ServiceVersion : String
  SampleRate : Nat
  SkipFunc : Request → Bool
  Tags : List (String × Int)

/-- Modelled from the spec: the handler that the third-party `httptracer.Tracer(t, cfg)`
puts around `next`, which is not part of this repository.  Sections 2, 3 and 4.2: the
middleware may "skip tracing for a designated health-check path" (a request for which
`cfg.SkipFunc` answers true goes straight to `next`); otherwise it "trace[s] every request
unless explicitly skipped": it starts a span, the "active tracing span" is "propagated down
the middleware chain and into handlers" through the request context, and the "top-level span
[is] closed by middleware" once the handler has written the response.  The operation name the
library gives to that span is a parameter of the model; the span has no parent among the
spans of this process. -/
def Tracer (operationName : Request → String) (cfg : Config) (next : Handler) : Handler :=
  fun r s =>
    if cfg.SkipFunc r then next r s
    else
      let (span, s) := StartSpan (operationName r) none s
      -- defer span.Finish()
      let s := next { r with ctx := ContextWithSpan r.ctx span } s
      Finish span s

/-! ## chi -/

/-- The middlewares that `main.go` hands to `r.Use`. -/
inductive Middleware where
  | RequestID
  | RealIP
  | Logger
  | Recoverer
  | Tracer (operationName : Request → String) (cfg : Config)

/-- Name under which a middleware appears in the trace of `main`. -/
def Middleware.name : Middleware → String
  | .RequestID => "middleware.RequestID"
  | .RealIP => "middleware.RealIP"
  | .Logger => "middleware.Logger"
  | .Recoverer => "middleware.Recoverer"
  | .Tracer _ _ => "httptracer.Tracer"

/-- Model of `middleware.RequestID`: the request id is the `X-Request-Id` header of the
request, or a generated one when the header is empty; it is stored in the context of the
request handed to `next`. -/
def RequestID (next : Handler) : Handler := fun r s =>
  let requestID := r.Header "X-Request-Id"
  let requestID := if requestID = "" then s.genID else requestID
  next { r with ctx := { r.ctx with reqID := requestID } } s

/-- Model of `middleware.RealIP`: when the headers announce a client address, it replaces
`r.RemoteAddr` in the request handed to `next`. -/
def RealIP (next : Handler) : Handler := fun r s =>
  let rip := r.realIP
  next { r with RemoteAddr := if rip ≠ "" then rip else r.RemoteAddr } s

/-- Model of `middleware.Logger`: the log entry is made from the request as `Logger`
receives it (request id from its context, method, remote address) and is printed by a
deferred call, once `next` has returned or panicked. -/
def Logger (next : Handler) : Handler := fun r s =>
  let entry := LogLine.request r.ctx.reqID r.Method r.RemoteAddr
  -- defer entry.Write(...)
  let s := next r s
  { s with out := s.out ++ [entry] }

/-- Model of `middleware.Recoverer`: `next` is called in normal execution; if it ends with
a panic, the deferred function recovers it, unless it is `http.ErrAbortHandler`, which is
raised again: the panic is printed and, unless the request asks for a connection upgrade,
status 500 is written. -/
def Recoverer (next : Handler) : Handler := fun r s =>
  let s := next r { s with panic := none }
  match s.panic with
  | none => s
  | some rvr =>
    if rvr = PanicValue.ErrAbortHandler then s
    else
      let s := { s with panic := none, out := s.out ++ [LogLine.panic rvr] }
      if r.Header "Connection" ≠ "Upgrade" then WriteHeader StatusInternalServerError s
      else s

/-- The handler a middleware makes of the handler it wraps. -/
def Middleware.wrap : Middleware → Handler → Handler
  | .RequestID, next => ExampleOtel.RequestID next
  | .RealIP, next => ExampleOtel.RealIP next
  | .Logger, next => ExampleOtel.Logger next
  | .Recoverer, next => ExampleOtel.Recoverer next
  | .Tracer operationName cfg, next => ExampleOtel.Tracer operationName cfg next

/-- A route of the mux: method, pattern and handler. -/
structure Route where
  method : String
  pattern : String
  handler : Handler

/-- Model of `chi.Mux`: the middleware stack, whether the routing handler has been built
(`mx.handler != nil`), and the registered routes. -/
structure Mux where
  middlewares : List Middleware
  handlerBuilt : Bool
  routes : List Route

/-- Model of `chi.NewRouter()`. -/
def NewRouter : Mux :=
  { middlewares := [], handlerBuilt := false, routes := [] }

/-- Model of `Mux.Use`: appends to the middleware stack, and panics once a route has been
registered. -/
def Mux.Use (mx : Mux) (m : Middleware) : Except Error Mux :=
  if mx.handlerBuilt then
    .error (.other "chi: all middlewares must be defined before routes on a mux")
  else
    .ok { mx with middlewares := mx.middlewares ++ [m] }

/-- Model of `Mux.Get`: panics unless the pattern begins with a slash; otherwise builds the
routing handler (freezing the middleware stack) and registers the handler for method `GET`. -/
def Mux.Get (mx : Mux) (pattern : String) (h : Handler) : Except Error Mux :=
  if pattern.toList.head? ≠ some '/' then
    .error (.other ("chi: routing pattern must begin with '/' in '" ++ pattern ++ "'"))
  else
    .ok { mx with handlerBuilt := true,
                  routes := mx.routes ++ [{ method := "GET", pattern := pattern, handler := h }] }

/-- Model of `http.NotFound`, chi's default not-found handler. -/
def NotFound : Handler := fun _ s =>
  let s := WriteHeader StatusNotFound s
  WriteString "404 page not found\n" s

/-- Model of chi's default method-not-allowed handler. -/
def MethodNotAllowed : Handler := fun _ s =>
  let s := WriteHeader StatusMethodNotAllowed s
  WriteString "" s

/-- The methods chi knows (its `methodMap`). -/
def methodMap : List String :=
  ["CONNECT", "DELETE", "GET", "HEAD", "OPTIONS", "PATCH", "POST", "PUT", "TRACE"]

/-- The path a request is routed on, as `Mux.routeHTTP` computes it: `r.URL.RawPath`
when it is set, `r.URL.Path` otherwise, and a slash when that is empty. -/
def Request.routePath (r : Request) : String :=
  let routePath := if r.RawPath ≠ "" then r.RawPath else r.Path
  if routePath = "" then "/" else routePath

/-- Model of `Mux.routeHTTP` for static patterns (the only kind `main.go` registers): a
method chi does not know is answered 405 at once; otherwise a route is selected when its
pattern equals the routing path and its method the request method; a path registered under
another method only gives 405, an unknown path 404. -/
def Mux.routeHTTP (mx : Mux) : Handler := fun r s =>
  let routePath := r.routePath
  if ¬ methodMap.contains r.Method then MethodNotAllowed r s
  else
    match mx.routes.find? (fun rt => rt.pattern == routePath && rt.method == r.Method) with
    | some rt => rt.handler r s
    | none =>
      if mx.routes.any (fun rt => rt.pattern == routePath) then MethodNotAllowed r s
      else NotFound r s

/-- Model of chi's `chain`: the first middleware of the stack is the outermost wrapper. -/
def chain (middlewares : List Middleware) (endpoint : Handler) : Handler :=
  middlewares.foldr Middleware.wrap endpoint

/-- Model of `Mux.ServeHTTP`: the middleware stack around the routing handler. -/
def Mux.ServeHTTP (mx : Mux) : Handler :=
  if mx.handlerBuilt then chain mx.middlewares mx.routeHTTP else NotFound

/-! ## The process: `main` -/

/-- What the outside world decides for one run of the program. -/
structure World where
  /-- The `err` result of `zap.NewDevelopment()`. -/
  NewDevelopment : Option Error
  /-- The process environment. -/
  environ : String → Option String
  /-- What `srv.ListenAndServe()` returns; `none` when it never returns. -/
  ListenAndServe : Option (Option Error)
  /-- The operation name httptracer gives to the span of a request. -/
  operationName : Request → String

/-- The fields of `http.Server` set by `main.go`. -/
structure Server where
  Addr : String
  Handler : Mux

/-- Calls made by `main`, in program order. -/
inductive Event where
  | NewDevelopment
  | panic (v : Error)
  | opentracerNew (serviceName : String)
  | tracerStop
  | SetGlobalTracer
  | NewRouter
  | Use (middleware : String)
  | Get (pattern : String)
  | LookupEnv (key : String)
  | loggerInfo (msg : String) (key : String) (value : String)
  | ListenAndServe (addr : String)
  | loggerError (msg : String) (err : Error)
deriving DecidableEq, Repr

/-- How far the process has got. -/
inductive Status where
  | running
  | returned
  | panicked (v : Error)
  | blocked
deriving DecidableEq, Repr

/-- State of the process: the calls made so far, the deferred calls (most recent first),
the server once it has been constructed, and the status. -/
structure Proc where
  trace : List Event
  deferred : List Event
  srv : Option Server
  status : Status

/-- Statements of `main`: state transformers that either yield a value or stop (panic, or
block for ever); the status of the resulting state says which. -/
def Go (α : Type) : Type := Proc → Option α × Proc

instance : Monad Go where
  pure a := fun p => (some a, p)
  bind m f := fun p =>
    match m p with
    | (some a, q) => f a q
    | (none, q) => (none, q)

/-- Record a call. -/
def call (e : Event) : Go Unit := fun p =>
  (some (), { p with trace := p.trace ++ [e] })

/-- Go's `panic(v)`. -/
def panic {α : Type} (v : Error) : Go α := fun p =>
  (none, { p with trace := p.trace ++ [Event.panic v], status := Status.panicked v })

/-- Go's `defer`: the call is pushed on the stack of deferred calls. -/
def defer (e : Event) : Go Unit := fun p =>
  (some (), { p with deferred := e :: p.deferred })

/-- A library call that may panic. -/
def orPanic {α : Type} : Except Error α → Go α
  | .ok a => pure a
  | .error v => panic v

/-- The call `zap.NewDevelopment()`; yields the `err` result. -/
def NewDevelopment (w : World) : Go (Option Error) := do
  call Event.NewDevelopment
  pure w.NewDevelopment

/-- The call `r.Use(m)`. -/
def Use (r : Mux) (m : Middleware) : Go Mux := do
  call (Event.Use m.name)
  orPanic (r.Use m)

/-- The call `r.Get(pattern, h)`. -/
def Get (r : Mux) (pattern : String) (h : Handler) : Go Mux := do
  call (Event.Get pattern)
  orPanic (r.Get pattern h)

/-- Model of `os.LookupEnv`: the value and whether the variable is present. -/
def LookupEnv (w : World) (key : String) : Go (String × Bool) := do
  call (Event.LookupEnv key)
  match w.environ key with
  | some v => pure (v, true)
  | none => pure ("", false)

/-- Model of `net.JoinHostPort`: a host containing a colon is put in brackets. -/
def JoinHostPort (host port : String) : String :=
  if host.toList.contains ':' then "[" ++ host ++ "]:" ++ port
  else host ++ ":" ++ port

/-- The call `srv.ListenAndServe()`: yields the returned error, or blocks for ever. -/
def ListenAndServe (w : World) (srv : Server) : Go (Option Error) := fun p =>
  let p := { p with trace := p.trace ++ [Event.ListenAndServe srv.Addr], srv := some srv }
  match w.ListenAndServe with
  | some err => (some err, p)
  | none => (none, { p with status := Status.blocked })

/-- The `httptracer.Config` literal of main.go, lines 48-58. -/
def tracerConfig : Config :=
  { ServiceName := ServiceName
    ServiceVersion := ServiceVersion
    SampleRate := 1
    SkipFunc := SkipFunc
    Tags := [("_dd.measured", 1)] }

/-- The body of `main` (main.go, lines 24-93), statement by statement. -/
def mainBody (w : World) : Go Unit := do
  let err ← NewDevelopment w
  match err with
  | some e => panic e
  | none => pure ()
  call (Event.opentracerNew ServiceName)
  defer Event.tracerStop
  call Event.SetGlobalTracer
  call Event.NewRouter
  let r := NewRouter
  let r ← Use r Middleware.RequestID
  let r ← Use r Middleware.RealIP
  let r ← Use r Middleware.Logger
  let r ← Use r Middleware.Recoverer
  let r ← Use r (Middleware.Tracer w.operationName tracerConfig)
  let r ← Get r "/" indexHandler
  let r ← Get r "/healthz" healthzHandler
  let (port, ok) ← LookupEnv w "PORT"
  let port := if !ok then "8080" else port
  let srv : Server := { Addr := JoinHostPort "" port, Handler := r }
  call (Event.loggerInfo "http server listening" "port" port)
  let err ← ListenAndServe w srv
  match err with
  | some e =>
    if e = Error.ErrServerClosed then
      call (Event.loggerError "http server error" e)
    else pure ()
  | none => pure ()

/-- Leaving `main`: unless the process is blocked for ever, the deferred calls run, most
recent first, both on return and on panic. -/
def Proc.exit (p : Proc) : Proc :=
  match p.status with
  | Status.blocked => p
  | Status.running => { p with trace := p.trace ++ p.deferred, deferred := [], status := Status.returned }
  | _ => { p with trace := p.trace ++ p.deferred, deferred := [] }

/-- One run of the program. -/
def main (w : World) : Proc :=
  (mainBody w { trace := [], deferred := [], srv := none, status := Status.running }).2.exit

/-! ## Derived descriptions of a run, and sample inputs -/

/-- The value of the variable `port` when `main` constructs the server. -/
def listenPort (w : World) : String :=
  match w.environ "PORT" with
  | some v => v
  | none => "8080"

/-- The mux `r` as it stands after the last `r.Get` of `main`. -/
def mainMux (w : World) : Mux :=
  { middlewares :=
      [Middleware.RequestID, Middleware.RealIP, Middleware.Logger, Middleware.Recoverer,
       Middleware.Tracer w.operationName tracerConfig]
    handlerBuilt := true
    routes :=
      [{ method := "GET", pattern := "/", handler := indexHandler },
       { method := "GET", pattern := "/healthz", handler := healthzHandler }] }

/-- The calls of `main` up to and including the last route registration. -/
def setupTrace : List Event :=
  [Event.NewDevelopment, Event.opentracerNew ServiceName, Event.SetGlobalTracer,
   Event.NewRouter,
   Event.Use "middleware.RequestID", Event.Use "middleware.RealIP",
   Event.Use "middleware.Logger", Event.Use "middleware.Recoverer",
   Event.Use "httptracer.Tracer",
   Event.Get "/", Event.Get "/healthz"]

/-- The calls of `main` after `ListenAndServe` has been called, by what it returns. -/
def shutdownTrace : Option (Option Error) → List Event
  | none => []
  | some none => [Event.tracerStop]
  | some (some e) =>
    if e = Error.ErrServerClosed then
      [Event.loggerError "http server error" e, Event.tracerStop]
    else [Event.tracerStop]

/-- Whether a call of `main` registers a middleware or a route. -/
def Event.isRegistration : Event → Bool
  | Event.Use _ => true
  | Event.Get _ => true
  | _ => false

/-- Whether an effect writes to the response. -/
def Effect.isWrite : Effect → Bool
  | Effect.WriteHeader _ => true
  | Effect.Write _ => true
  | _ => false

/-- Whether an effect starts a span. -/
def Effect.isStartSpan : Effect → Bool
  | Effect.StartSpan _ _ _ _ => true
  | _ => false

/-- A sample world: the logger is built, `PORT` is not set, the server is closed down
cleanly, and httptracer names its spans `http.request`. -/
def sampleWorld : World :=
  { NewDevelopment := none
    environ := fun _ => none
    ListenAndServe := some (some Error.ErrServerClosed)
    operationName := fun _ => "http.request" }

/-- A sample world in which `PORT` is set to `9999` and binding the port fails. -/
def bindFailureWorld : World :=
  { NewDevelopment := none
    environ := fun k => if k = "PORT" then some "9999" else none
    ListenAndServe := some (some (Error.other "listen tcp :9999: bind: address already in use"))
    operationName := fun _ => "http.request" }

/-- A sample world in which the logger cannot be built. -/
def noLoggerWorld : World :=
  { NewDevelopment := some (Error.other "couldn't open sink")
    environ := fun _ => none
    ListenAndServe := none
    operationName := fun _ => "http.request" }

/-- The state in which a request starts to be served: clock at zero, every call taking one
nanosecond, no span started, nothing written. -/
def freshExchange : Exchange :=
  { now := 0, lat := fun _ => 1, tick := 0, nextSpan := 0,
    w := { status := none, body := "" }, log := [],
    genID := "host/Xq3bL9-000001", out := [], panic := none }

/-- A `GET` request for the given path, spelled in its default encoding, with no headers
of interest and an empty context. -/
def getRequest (path : String) : Request :=
  { Method := "GET", Path := path, RawPath := "", Header := fun _ => "",
    RemoteAddr := "192.0.2.7:51234", realIP := "", ctx := { span := none, reqID := "" },
    escaped := Or.inl rfl }

/-- The request `GET /%68ealthz`: its path decodes to `/healthz`, and since that spelling
is not the default encoding, `RawPath` keeps it. -/
def escapedHealthzRequest : Request :=
  { Method := "GET", Path := "/healthz", RawPath := "/%68ealthz", Header := fun _ => "",
    RemoteAddr := "192.0.2.7:51234", realIP := "", ctx := { span := none, reqID := "" },
    escaped := Or.inr ⟨by decide, by decide⟩ }

/-- A handler that panics at once with the given value. -/
def panicHandler (v : PanicValue) : Handler := fun _ s =>
  { s with panic := some v }

/-! ## Facts about every run -/

theorem JoinHostPort_empty (port : String) : JoinHostPort "" port = ":" ++ port := by
  simp [JoinHostPort]

theorem main_of_logger_error (w : World) (e : Error) (h : w.NewDevelopment = some e) :
    (main w).trace = [Event.NewDevelopment, Event.panic e] ∧
    (main w).status = Status.panicked e ∧ (main w).srv = none := by
  obtain ⟨nd, env, ls, op⟩ := w
  simp only at h
  subst h
  exact ⟨rfl, rfl, rfl⟩

theorem main_srv (w : World) (h : w.NewDevelopment = none) :
    (main w).srv = some { Addr := ":" ++ listenPort w, Handler := mainMux w } := by
  obtain ⟨nd, env, ls, op⟩ := w
  simp only at h
  subst h
  cases hp : env "PORT" <;> rcases ls with _ | _ | _ | msg <;>
    simp [main, mainBody, bind, NewDevelopment, call, pure, defer, Use, Get, orPanic, Mux.Use,
      Mux.Get, NewRouter, LookupEnv, hp, ListenAndServe, Proc.exit, Middleware.name,
      JoinHostPort, listenPort, mainMux]

theorem main_trace (w : World) (h : w.NewDevelopment = none) :
    (main w).trace =
      setupTrace ++
        [Event.LookupEnv "PORT",
         Event.loggerInfo "http server listening" "port" (listenPort w),
         Event.ListenAndServe (":" ++ listenPort w)] ++
        shutdownTrace w.ListenAndServe := by
  obtain ⟨nd, env, ls, op⟩ := w
  simp only at h
  subst h
  cases hp : env "PORT" <;> rcases ls with _ | _ | _ | msg <;>
    simp [main, mainBody, bind, NewDevelopment, call, pure, defer, Use, Get, orPanic, Mux.Use,
      Mux.Get, NewRouter, LookupEnv, hp, ListenAndServe, Proc.exit, Middleware.name,
      JoinHostPort, listenPort, setupTrace, shutdownTrace]

theorem main_status (w : World) (h : w.NewDevelopment = none) :
    (main w).status =
      match w.ListenAndServe with
      | none => Status.blocked
      | some _ => Status.returned := by
  obtain ⟨nd, env, ls, op⟩ := w
  simp only at h
  subst h
  cases hp : env "PORT" <;> rcases ls with _ | _ | _ | msg <;>
    simp [main, mainBody, bind, NewDevelopment, call, pure, defer, Use, Get, orPanic, Mux.Use,
      Mux.Get, NewRouter, LookupEnv, hp, ListenAndServe, Proc.exit, Middleware.name,
      JoinHostPort]

theorem newDevelopment_of_tracer_started (w : World)
    (h : Event.opentracerNew ServiceName ∈ (main w).trace) : w.NewDevelopment = none := by
  cases hnd : w.NewDevelopment with
  | none => rfl
  | some e =>
    rw [(main_of_logger_error w e hnd).1] at h
    simp at h

theorem colon_append_inj (p q : String) (h : ":" ++ p = ":" ++ q) : p = q := by
  have hd := congrArg String.data h
  simp only [String.data_append, List.append_cancel_left_eq] at hd
  exact String.ext hd

theorem unescape_eq_nil (l : List Char) (h : unescape l = some []) : l = [] := by
  rcases l with _ | ⟨c, _ | ⟨a, _ | ⟨b, rest⟩⟩⟩
  · rfl
  · exfalso
    by_cases hc : c = '%' <;> simp [unescape, hc] at h
  · exfalso
    by_cases hc : c = '%'
    · simp [unescape, hc] at h
    · cases hq : unescape [a] <;> simp [unescape, hc, hq] at h
  · exfalso
    by_cases hc : c = '%'
    · by_cases hx : (ishex a && ishex b) = true
      · cases hq : unescape rest <;> simp [unescape, hc, hx, hq] at h
      · simp [unescape, hc, hx] at h
    · cases hq : unescape (a :: b :: rest) <;> simp [unescape, hc, hq] at h

theorem unescape_slash (rest : List Char) :
    unescape ('/' :: rest) = (unescape rest).map (fun l => '/' :: l) := by
  rcases rest with _ | ⟨a, _ | ⟨b, rest⟩⟩ <;> simp [unescape]

theorem Request.rawPath_of_root (r : Request) (h : r.Path = "/") :
    r.RawPath = "" ∨ r.RawPath = "/" := by
  rcases r.escaped with h0 | ⟨hh, hu⟩
  · exact Or.inl h0
  · right
    rw [h] at hu
    cases hl : r.RawPath.toList with
    | nil => rw [hl] at hh; simp at hh
    | cons c rest =>
      rw [hl] at hh hu
      simp only [List.head?_cons, Option.some.injEq] at hh
      subst hh
      rw [unescape_slash] at hu
      have hr : unescape rest = some [] := by
        cases hq : unescape rest with
        | none => simp [hq] at hu
        | some q =>
          rw [hq] at hu
          have h1 : '/' :: q = ['/'] := by simpa using hu
          simp at h1
          rw [h1]
      have hnil := unescape_eq_nil rest hr
      apply String.ext
      show r.RawPath.toList = "/".toList
      rw [hl, hnil]
      rfl

theorem Request.routePath_of_root (r : Request) (h : r.Path = "/") : r.routePath = "/" := by
  rcases r.rawPath_of_root h with h0 | h0 <;> simp [Request.routePath, h0, h]

theorem mainMux_routeHTTP_out (w : World) (r : Request) (s : Exchange) :
    ((mainMux w).routeHTTP r s).out = s.out ∧ ((mainMux w).routeHTTP r s).panic = s.panic := by
  simp only [Mux.routeHTTP, mainMux, List.find?, List.any]
  by_cases h1 : ("/" == r.routePath && "GET" == r.Method) = true
  · simp [h1, indexHandler, MethodNotAllowed, NotFound, StartSpanFromContext,
      StartSpan, ContextWithSpan, Sleep, Finish, WriteHeader, WriteString, Exchange.advance]
    split <;> simp
  · by_cases h2 : ("/healthz" == r.routePath && "GET" == r.Method) = true
    · simp [h1, h2, healthzHandler, MethodNotAllowed, NotFound,
        WriteHeader, WriteString, Exchange.advance]
      split <;> simp
    · simp [h1, h2, MethodNotAllowed, NotFound,
        WriteHeader, WriteString, Exchange.advance]
      repeat' split
      all_goals simp

/-! ## Start-up and shutdown of the process -/

/-- C9: if `zap.NewDevelopment` returns an error, `main` panics with that error and has done
nothing else: the only calls of the run are the logger construction and the panic, so the
tracer is neither started nor stopped nor made global, nothing is registered on a router,
`PORT` is not looked up, and no server is constructed or started. -/
theorem logger_failure_aborts (w : World) (err : Error) (h : w.NewDevelopment = some err) :
    (main w).trace = [Event.NewDevelopment, Event.panic err] ∧
    (main w).status = Status.panicked err ∧
    (main w).srv = none ∧
    Event.opentracerNew ServiceName ∉ (main w).trace ∧
    Event.SetGlobalTracer ∉ (main w).trace ∧
    (main w).trace.filter Event.isRegistration = [] ∧
    Event.LookupEnv "PORT" ∉ (main w).trace ∧
    (∀ addr, Event.ListenAndServe addr ∉ (main w).trace) := by
  obtain ⟨ht, hs, hv⟩ := main_of_logger_error w err h
  refine ⟨ht, hs, hv, ?_, ?_, ?_, ?_, ?_⟩ <;> rw [ht] <;> simp [Event.isRegistration]

theorem logger_failure_aborts_witness :
    noLoggerWorld.NewDevelopment = some (Error.other "couldn't open sink") ∧
    (main noLoggerWorld).trace =
      [Event.NewDevelopment, Event.panic (Error.other "couldn't open sink")] :=
  ⟨rfl, (logger_failure_aborts noLoggerWorld (Error.other "couldn't open sink") rfl).1⟩

/-- C8: in every run in which the tracer is started and `ListenAndServe` returns (whatever it
returns), `tracer.Stop` is called exactly once, as the last call of the run, hence after
`ListenAndServe` has been called and has returned. -/
theorem tracer_stop_once_after_serve (w : World)
    (hstart : Event.opentracerNew ServiceName ∈ (main w).trace)
    (err : Option Error) (hret : w.ListenAndServe = some err) :
    (main w).trace.count Event.tracerStop = 1 ∧
    ∃ pre, (main w).trace = pre ++ [Event.tracerStop] ∧
      Event.tracerStop ∉ pre ∧
      Event.ListenAndServe (":" ++ listenPort w) ∈ pre := by
  have hw := newDevelopment_of_tracer_started w hstart
  rw [main_trace w hw, hret]
  rcases err with _ | _ | msg
  · refine ⟨by simp [setupTrace, shutdownTrace],
      setupTrace ++
        [Event.LookupEnv "PORT", Event.loggerInfo "http server listening" "port" (listenPort w),
         Event.ListenAndServe (":" ++ listenPort w)],
      by simp [shutdownTrace], by simp [setupTrace], by simp⟩
  · refine ⟨by simp [setupTrace, shutdownTrace],
      setupTrace ++
        [Event.LookupEnv "PORT", Event.loggerInfo "http server listening" "port" (listenPort w),
         Event.ListenAndServe (":" ++ listenPort w),
         Event.loggerError "http server error" Error.ErrServerClosed],
      by simp [shutdownTrace], by simp [setupTrace], by simp⟩
  · refine ⟨by simp [setupTrace, shutdownTrace],
      setupTrace ++
        [Event.LookupEnv "PORT", Event.loggerInfo "http server listening" "port" (listenPort w),
         Event.ListenAndServe (":" ++ listenPort w)],
      by simp [shutdownTrace], by simp [setupTrace], by simp⟩

theorem tracer_stop_once_after_serve_witness :
    Event.opentracerNew ServiceName ∈ (main bindFailureWorld).trace ∧
    bindFailureWorld.ListenAndServe =
      some (some (Error.other "listen tcp :9999: bind: address already in use")) ∧
    (main bindFailureWorld).trace.count Event.tracerStop = 1 :=
  ⟨by decide, rfl,
   (tracer_stop_once_after_serve bindFailureWorld (by decide) _ rfl).1⟩

/-- C5: the listen address comes from `PORT`: when the logger is built, `main` constructs
the server and calls `ListenAndServe` with an address that is a colon followed by the value of
`PORT` whenever `PORT` is present (whatever string it holds, the empty string included), and
`:8080` when `PORT` is absent; a `PORT` that is present with a value other than `8080` never
yields `:8080`. -/
theorem listen_addr_from_PORT (w : World) (hw : w.NewDevelopment = none) :
    ∃ srv, (main w).srv = some srv ∧
      Event.ListenAndServe srv.Addr ∈ (main w).trace ∧
      (∀ p, w.environ "PORT" = some p → srv.Addr = ":" ++ p) ∧
      (w.environ "PORT" = none → srv.Addr = ":8080") ∧
      (∀ p, w.environ "PORT" = some p → p ≠ "8080" → srv.Addr ≠ ":8080") := by
  refine ⟨_, main_srv w hw, ?_, ?_, ?_, ?_⟩
  · rw [main_trace w hw]
    simp
  · intro p hp
    simp [listenPort, hp]
  · intro hp
    simp only [listenPort, hp]
    decide
  · intro p hp hne heq
    simp only [listenPort, hp] at heq
    exact hne (colon_append_inj p "8080" heq)

theorem listen_addr_from_PORT_witness :
    bindFailureWorld.NewDevelopment = none ∧
    ∃ srv, (main bindFailureWorld).srv = some srv ∧ srv.Addr = ":9999" := by
  obtain ⟨srv, hsrv, _, hp, _, _⟩ := listen_addr_from_PORT bindFailureWorld rfl
  exact ⟨rfl, srv, hsrv, hp "9999" rfl⟩

/-- C3 (evaluation of the code): when binding the port fails, so that `ListenAndServe`
returns an error other than `http.ErrServerClosed`, `main` logs nothing after the call and
only stops the tracer; when `ListenAndServe` returns `http.ErrServerClosed`, `main` logs it
with `logger.Error`.  The test on line 89 is `err == http.ErrServerClosed`. -/
theorem serve_error_logging_inverted :
    (main bindFailureWorld).trace =
      setupTrace ++
        [Event.LookupEnv "PORT", Event.loggerInfo "http server listening" "port" "9999",
         Event.ListenAndServe ":9999", Event.tracerStop] ∧
    (main sampleWorld).trace =
      setupTrace ++
        [Event.LookupEnv "PORT", Event.loggerInfo "http server listening" "port" "8080",
         Event.ListenAndServe ":8080",
         Event.loggerError "http server error" Error.ErrServerClosed, Event.tracerStop] := by
  constructor <;> decide

/-- C6: when the logger is built, the middleware stack of the router that `main` serves is
exactly request-ID tagging, real-IP resolution, request logging, panic recovery, tracing, in
this order; the served handler is that stack nested in this order around the routing handler;
and the registration calls of `main` are the five `Use` calls followed by the two `Get`
calls.  The nesting shows in what the stack does.  ID tagging and IP resolution come before
logging: for every request served, the line `Logger` prints carries the request id that
`RequestID` stored and the remote address that `RealIP` resolved.  Panic recovery is around
the tracing middleware and around whatever handler the stack ends in: if that handler panics
(with anything but `http.ErrAbortHandler`) on a request the tracer does not skip, the span of
the tracing middleware is started and, as the panic passes through it, finished; only then
does `Recoverer` recover the panic, print it and write status 500; the stack returns
normally and `Logger` prints its line last. -/
theorem middleware_chain_order (w : World) (hw : w.NewDevelopment = none) :
    ∃ srv, (main w).srv = some srv ∧
      srv.Handler.middlewares =
        [Middleware.RequestID, Middleware.RealIP, Middleware.Logger, Middleware.Recoverer,
         Middleware.Tracer w.operationName tracerConfig] ∧
      srv.Handler.ServeHTTP =
        Middleware.RequestID.wrap (Middleware.RealIP.wrap (Middleware.Logger.wrap
          (Middleware.Recoverer.wrap
            ((Middleware.Tracer w.operationName tracerConfig).wrap srv.Handler.routeHTTP)))) ∧
      (main w).trace.filter Event.isRegistration =
        [Event.Use "middleware.RequestID", Event.Use "middleware.RealIP",
         Event.Use "middleware.Logger", Event.Use "middleware.Recoverer",
         Event.Use "httptracer.Tracer", Event.Get "/", Event.Get "/healthz"] ∧
      (∀ (r : Request) (s : Exchange),
        (srv.Handler.ServeHTTP r s).out =
          s.out ++
            [LogLine.request
              (if r.Header "X-Request-Id" = "" then s.genID else r.Header "X-Request-Id")
              r.Method
              (if r.realIP ≠ "" then r.realIP else r.RemoteAddr)] ∧
        (srv.Handler.ServeHTTP r s).panic = none) ∧
      (∀ (v : PanicValue) (r : Request) (s : Exchange),
        v ≠ PanicValue.ErrAbortHandler → SkipFunc r = false →
        r.Header "Connection" ≠ "Upgrade" →
        ∃ name t0 t1 s1,
          chain srv.Handler.middlewares (panicHandler v) r s = s1 ∧
          s1.panic = none ∧
          s1.log =
            s.log ++
              [Effect.StartSpan s.nextSpan name none t0,
               Effect.Finish s.nextSpan t1,
               Effect.WriteHeader StatusInternalServerError] ∧
          (s.w.status = none → s1.w.status = some StatusInternalServerError) ∧
          s1.out =
            s.out ++
              [LogLine.panic v,
               LogLine.request
                (if r.Header "X-Request-Id" = "" then s.genID else r.Header "X-Request-Id")
                r.Method
                (if r.realIP ≠ "" then r.realIP else r.RemoteAddr)]) := by
  refine ⟨_, main_srv w hw, rfl, rfl, ?_, ?_, ?_⟩
  · rw [main_trace w hw]
    rcases hl : w.ListenAndServe with _ | _ | _ | msg <;>
      simp [setupTrace, shutdownTrace, Event.isRegistration]
  · intro r s
    have key : ∀ (r1 : Request) (s1 : Exchange),
        (Recoverer (Tracer w.operationName tracerConfig (mainMux w).routeHTTP) r1 s1).out =
          s1.out ∧
        (Recoverer (Tracer w.operationName tracerConfig (mainMux w).routeHTTP) r1 s1).panic =
          none := by
      intro r1 s1
      have hroute := mainMux_routeHTTP_out w
      by_cases hk : tracerConfig.SkipFunc r1 = true
      · simp [Recoverer, Tracer, hk, hroute]
      · simp [Recoverer, Tracer, hk, hroute, StartSpan, Finish, Exchange.advance]
    have e : (mainMux w).ServeHTTP =
        RequestID (RealIP (Logger (Recoverer
          (Tracer w.operationName tracerConfig (mainMux w).routeHTTP)))) := rfl
    rw [e]
    constructor
    · simp only [RequestID, RealIP, Logger]
      rw [(key _ _).1]
    · simp only [RequestID, RealIP, Logger]
      rw [(key _ _).2]
  · intro v r s hv hskip hconn
    have hpath : r.Path ≠ "/health" := by simpa [SkipFunc] using hskip
    refine ⟨w.operationName
        { r with
          RemoteAddr := if r.realIP ≠ "" then r.realIP else r.RemoteAddr
          ctx := { r.ctx with
            reqID := if r.Header "X-Request-Id" = "" then s.genID else r.Header "X-Request-Id" } },
      s.now + s.lat s.tick, s.now + s.lat s.tick + s.lat (s.tick + 1), _, rfl,
      ?_, ?_, ?_, ?_⟩
    · simp [mainMux, chain, Middleware.wrap, RequestID, RealIP, Logger, Recoverer, Tracer,
        tracerConfig, SkipFunc, hpath, hconn, hv, panicHandler, StartSpan, Finish, WriteHeader,
        Exchange.advance, ContextWithSpan, ResponseWriter.WriteHeader]
    · simp [mainMux, chain, Middleware.wrap, RequestID, RealIP, Logger, Recoverer, Tracer,
        tracerConfig, SkipFunc, hpath, hconn, hv, panicHandler, StartSpan, Finish, WriteHeader,
        Exchange.advance, ContextWithSpan, ResponseWriter.WriteHeader]
    · intro hst
      simp [mainMux, chain, Middleware.wrap, RequestID, RealIP, Logger, Recoverer, Tracer,
        tracerConfig, SkipFunc, hpath, hconn, hv, panicHandler, StartSpan, Finish, WriteHeader,
        Exchange.advance, ContextWithSpan, ResponseWriter.WriteHeader, hst]
    · simp [mainMux, chain, Middleware.wrap, RequestID, RealIP, Logger, Recoverer, Tracer,
        tracerConfig, SkipFunc, hpath, hconn, hv, panicHandler, StartSpan, Finish, WriteHeader,
        Exchange.advance, ContextWithSpan, ResponseWriter.WriteHeader]

theorem middleware_chain_order_witness :
    sampleWorld.NewDevelopment = none ∧
    ∃ srv, (main sampleWorld).srv = some srv ∧
      srv.Handler.middlewares.map Middleware.name =
        ["middleware.RequestID", "middleware.RealIP", "middleware.Logger",
         "middleware.Recoverer", "httptracer.Tracer"] ∧
      (srv.Handler.ServeHTTP (getRequest "/healthz") freshExchange).out =
        [LogLine.request "host/Xq3bL9-000001" "GET" "192.0.2.7:51234"] ∧
      (chain srv.Handler.middlewares (panicHandler (PanicValue.other "boom"))
        (getRequest "/") freshExchange).w.status = some 500 := by
  obtain ⟨srv, hsrv, hm, _, _, hlog, hrec⟩ := middleware_chain_order sampleWorld rfl
  obtain ⟨_, _, _, s1, hs1, _, _, hst, _⟩ :=
    hrec (PanicValue.other "boom") (getRequest "/") freshExchange (by decide) (by decide)
      (by decide)
  exact ⟨rfl, srv, hsrv, by rw [hm]; rfl, (hlog (getRequest "/healthz") freshExchange).1,
    by rw [hs1]; exact hst rfl⟩

/-! ## Serving requests -/

/-- C10: every execution of the index handler makes exactly these calls, in this order:
it starts `IndexHandler` as a child of whatever span the request context holds, starts
`DBCall` as a child of `IndexHandler`, sleeps 100ms, finishes `DBCall`, writes the body, and
finishes `IndexHandler`.  Each of the two spans is therefore finished exactly once,
`DBCall` starts no earlier and finishes no later than `IndexHandler`, and `DBCall` lasts at
least 100ms. -/
theorem indexHandler_span_sequence (r : Request) (s : Exchange) :
    ∃ t0 t1 t2 t3,
      (indexHandler r s).log =
        s.log ++
          [Effect.StartSpan s.nextSpan "IndexHandler" r.ctx.span t0,
           Effect.StartSpan (s.nextSpan + 1) "DBCall" (some s.nextSpan) t1,
           Effect.Sleep (100 * Millisecond),
           Effect.Finish (s.nextSpan + 1) t2,
           Effect.Write "Hello, World!",
           Effect.Finish s.nextSpan t3] ∧
      t0 ≤ t1 ∧ t1 + 100 * Millisecond ≤ t2 ∧ t2 ≤ t3 := by
  refine ⟨s.now + s.lat s.tick,
    s.now + s.lat s.tick + s.lat (s.tick + 1),
    s.now + s.lat s.tick + s.lat (s.tick + 1) + s.lat (s.tick + 2) + 100 * Millisecond
      + s.lat (s.tick + 3),
    s.now + s.lat s.tick + s.lat (s.tick + 1) + s.lat (s.tick + 2) + 100 * Millisecond
      + s.lat (s.tick + 3) + s.lat (s.tick + 4) + s.lat (s.tick + 5), ?_, ?_, ?_, ?_⟩
  · simp [indexHandler, StartSpanFromContext, StartSpan, ContextWithSpan, Sleep, Finish,
      WriteString, Exchange.advance]
  · omega
  · omega
  · omega

/-- C7: when the logger is built, a `GET` request for `/` that arrives with a fresh response
writer is routed to the index handler, and the response has status 200 and body exactly
`Hello, World!`; the only write to the response is the single write of that body. -/
theorem index_response (w : World) (hw : w.NewDevelopment = none)
    (r : Request) (hm : r.Method = "GET") (hp : r.Path = "/")
    (s : Exchange) (hs : s.w = { status := none, body := "" }) :
    ∃ srv, (main w).srv = some srv ∧
      srv.Handler.routeHTTP r = indexHandler r ∧
      (srv.Handler.ServeHTTP r s).w = { status := some 200, body := "Hello, World!" } ∧
      (srv.Handler.ServeHTTP r s).log.filter Effect.isWrite =
        s.log.filter Effect.isWrite ++ [Effect.Write "Hello, World!"] := by
  have hroute := r.routePath_of_root hp
  refine ⟨_, main_srv w hw, ?_, ?_, ?_⟩
  · funext s
    simp [Mux.routeHTTP, mainMux, hroute, hm, methodMap]
  · rcases r.rawPath_of_root hp with hraw | hraw <;> simp [Mux.ServeHTTP, Mux.routeHTTP, mainMux, chain, Middleware.wrap, RequestID, RealIP,
      Logger, Recoverer, Tracer, tracerConfig, SkipFunc, Request.routePath, hraw, hp, hm,
      methodMap, indexHandler, StartSpanFromContext, StartSpan, ContextWithSpan, Sleep, Finish,
      WriteString, Exchange.advance, hs, ResponseWriter.Write, ResponseWriter.WriteHeader,
      StatusOK]
  · rcases r.rawPath_of_root hp with hraw | hraw <;>
    simp [Mux.ServeHTTP, Mux.routeHTTP, mainMux, chain, Middleware.wrap, RequestID, RealIP,
      Logger, Recoverer, Tracer, tracerConfig, SkipFunc, Request.routePath, hraw, hp, hm,
      methodMap, indexHandler, StartSpanFromContext, StartSpan, ContextWithSpan, Sleep, Finish,
      WriteString, Exchange.advance, Effect.isWrite]

theorem index_response_witness :
    sampleWorld.NewDevelopment = none ∧
    ∃ srv, (main sampleWorld).srv = some srv ∧
      (srv.Handler.ServeHTTP (getRequest "/") freshExchange).w =
        { status := some 200, body := "Hello, World!" } := by
  obtain ⟨srv, hsrv, _, hw, _⟩ :=
    index_response sampleWorld rfl (getRequest "/") rfl rfl freshExchange rfl
  exact ⟨rfl, srv, hsrv, hw⟩

/-- C4 (what the code does): when the logger is built, serving a `GET` request for `/`
emits exactly three spans: the span of the tracing middleware (its skip predicate is false
for `/`), started first and finished last, and named by the library after the request as
the tracing middleware receives it (with the request id and remote address that the outer
middlewares have set); `IndexHandler`, whose parent is the middleware span; and `DBCall`,
whose parent is `IndexHandler`. -/
theorem index_request_spans (w : World) (hw : w.NewDevelopment = none)
    (r : Request) (hm : r.Method = "GET") (hp : r.Path = "/") (s : Exchange) :
    ∃ srv, (main w).srv = some srv ∧
      ∃ t0 t1 t2 t3 t4 t5,
        (srv.Handler.ServeHTTP r s).log =
          s.log ++
            [Effect.StartSpan s.nextSpan
               (w.operationName
                 { r with
                   RemoteAddr := if r.realIP ≠ "" then r.realIP else r.RemoteAddr
                   ctx := { r.ctx with
                     reqID :=
                       if r.Header "X-Request-Id" = "" then s.genID
                       else r.Header "X-Request-Id" } })
               none t0,
             Effect.StartSpan (s.nextSpan + 1) "IndexHandler" (some s.nextSpan) t1,
             Effect.StartSpan (s.nextSpan + 2) "DBCall" (some (s.nextSpan + 1)) t2,
             Effect.Sleep (100 * Millisecond),
             Effect.Finish (s.nextSpan + 2) t3,
             Effect.Write "Hello, World!",
             Effect.Finish (s.nextSpan + 1) t4,
             Effect.Finish s.nextSpan t5] := by
  refine ⟨_, main_srv w hw, ?_⟩
  refine ⟨s.now + s.lat s.tick,
    s.now + s.lat s.tick + s.lat (s.tick + 1),
    s.now + s.lat s.tick + s.lat (s.tick + 1) + s.lat (s.tick + 2),
    s.now + s.lat s.tick + s.lat (s.tick + 1) + s.lat (s.tick + 2) + s.lat (s.tick + 3)
      + 100 * Millisecond + s.lat (s.tick + 4),
    s.now + s.lat s.tick + s.lat (s.tick + 1) + s.lat (s.tick + 2) + s.lat (s.tick + 3)
      + 100 * Millisecond + s.lat (s.tick + 4) + s.lat (s.tick + 5) + s.lat (s.tick + 6),
    s.now + s.lat s.tick + s.lat (s.tick + 1) + s.lat (s.tick + 2) + s.lat (s.tick + 3)
      + 100 * Millisecond + s.lat (s.tick + 4) + s.lat (s.tick + 5) + s.lat (s.tick + 6)
      + s.lat (s.tick + 7), ?_⟩
  rcases r.rawPath_of_root hp with hraw | hraw <;>
  simp [Mux.ServeHTTP, Mux.routeHTTP, mainMux, chain, Middleware.wrap, RequestID, RealIP,
    Logger, Recoverer, Tracer, tracerConfig, SkipFunc, Request.routePath, hraw, hp, hm,
    methodMap, indexHandler, StartSpanFromContext, StartSpan, ContextWithSpan, Sleep, Finish,
    WriteString, Exchange.advance]

theorem index_request_spans_witness :
    sampleWorld.NewDevelopment = none ∧
    ∃ srv, (main sampleWorld).srv = some srv ∧
      ((srv.Handler.ServeHTTP (getRequest "/") freshExchange).log.filter
        Effect.isStartSpan).length = 3 := by
  obtain ⟨srv, hsrv, t0, t1, t2, t3, t4, t5, hlog⟩ :=
    index_request_spans sampleWorld rfl (getRequest "/") rfl rfl freshExchange
  exact ⟨rfl, srv, hsrv, by rw [hlog]; rfl⟩

/-- C4 (counterexample): for a `GET` request for `/` served by the router of `main`, the
spans started are three, not two: the first is the tracing middleware's, and `IndexHandler`
has that span as its parent, so it is not a root span. -/
theorem index_request_not_two_spans :
    ∃ srv, (main sampleWorld).srv = some srv ∧
      (srv.Handler.ServeHTTP (getRequest "/") freshExchange).log.filter Effect.isStartSpan =
        [Effect.StartSpan 0 "http.request" none 1,
         Effect.StartSpan 1 "IndexHandler" (some 0) 2,
         Effect.StartSpan 2 "DBCall" (some 1) 3] :=
  ⟨_, main_srv sampleWorld rfl, by decide⟩

/-- C1 (evaluation of the code): the skip predicate answers true for the path `/health` but
false for `/healthz`, the path on which the health handler is registered; a `GET` request
for `/healthz` is therefore served inside a span of the tracing middleware. -/
theorem healthz_not_skipped :
    SkipFunc (getRequest "/health") = true ∧
    SkipFunc (getRequest "/healthz") = false ∧
    ∃ srv, (main sampleWorld).srv = some srv ∧
      (srv.Handler.ServeHTTP (getRequest "/healthz") freshExchange).log =
        [Effect.StartSpan 0 "http.request" none 1,
         Effect.WriteHeader 200,
         Effect.Write "OK",
         Effect.Finish 0 4] :=
  ⟨by decide, by decide, _, main_srv sampleWorld rfl, by decide⟩

/-- C2 (counterexample): a `GET` request for `/health` matches no route of the router of
`main`; it is answered by the not-found handler with status 404, not by the health handler
with status 200 and body `OK`.  The same happens to `GET /%68ealthz`, whose path is
`/healthz` once decoded: chi routes on the raw spelling. -/
theorem health_path_not_routed :
    ∃ srv, (main sampleWorld).srv = some srv ∧
      (srv.Handler.routes.map (fun rt => (rt.method, rt.pattern))) =
        [("GET", "/"), ("GET", "/healthz")] ∧
      (srv.Handler.ServeHTTP (getRequest "/health") freshExchange).w =
        { status := some 404, body := "404 page not found\n" } ∧
      (srv.Handler.ServeHTTP (getRequest "/health") freshExchange).w ≠
        { status := some 200, body := "OK" } ∧
      escapedHealthzRequest.Path = "/healthz" ∧
      (srv.Handler.ServeHTTP escapedHealthzRequest freshExchange).w =
        { status := some 404, body := "404 page not found\n" } :=
  ⟨_, main_srv sampleWorld rfl, by decide, by decide, by decide, rfl, by decide⟩

/-- C2 (what the code does): when the logger is built, a `GET` request for the path
`/healthz`, spelled that way (so that `URL.RawPath` is empty), that arrives with a fresh
response writer is routed to the health handler, and the response has status exactly 200 and
body exactly `OK`. -/
theorem healthz_response (w : World) (hw : w.NewDevelopment = none)
    (r : Request) (hm : r.Method = "GET") (hp : r.Path = "/healthz") (hraw : r.RawPath = "")
    (s : Exchange) (hs : s.w = { status := none, body := "" }) :
    ∃ srv, (main w).srv = some srv ∧
      srv.Handler.routeHTTP r = healthzHandler r ∧
      (srv.Handler.ServeHTTP r s).w = { status := some 200, body := "OK" } := by
  refine ⟨_, main_srv w hw, ?_, ?_⟩
  · funext s
    simp [Mux.routeHTTP, mainMux, Request.routePath, hraw, hp, hm, methodMap]
  · simp [Mux.ServeHTTP, Mux.routeHTTP, mainMux, chain, Middleware.wrap, RequestID, RealIP,
      Logger, Recoverer, Tracer, tracerConfig, SkipFunc, Request.routePath, hraw, hp, hm,
      methodMap, healthzHandler, StartSpan, ContextWithSpan, Finish, WriteHeader,
      WriteString, Exchange.advance, hs, ResponseWriter.Write, ResponseWriter.WriteHeader,
      StatusOK]

theorem healthz_response_witness :
    sampleWorld.NewDevelopment = none ∧
    (getRequest "/healthz").Method = "GET" ∧ (getRequest "/healthz").Path = "/healthz" ∧
    (getRequest "/healthz").RawPath = "" ∧
    ∃ srv, (main sampleWorld).srv = some srv ∧
      (srv.Handler.ServeHTTP (getRequest "/healthz") freshExchange).w =
        { status := some 200, body := "OK" } := by
  obtain ⟨srv, hsrv, _, hw⟩ :=
    healthz_response sampleWorld rfl (getRequest "/healthz") rfl rfl rfl freshExchange rfl
  exact ⟨rfl, rfl, rfl, rfl, srv, hsrv, hw⟩

end ExampleOtel
